import Mathlib

/-
  Shallow embedding of the ovechbot_go scoring pipeline.

  Conventions of the embedding:
  - Go float64 values are modelled as real numbers; Go int values as integers.
  - Go date strings of the form YYYY-MM-DD are modelled as an optional UTC day
    number: some d when time.Parse accepts the string, none when it fails.
  - Go maps from team abbreviation to standings rows are modelled as
    association lists; lookup finds the first binding for a key.
  - math.Round (half away from zero) is goRound; the Go float-to-int
    conversion (truncation toward zero) is goTrunc.
-/

namespace Ovech

/-- One historical game of the subject player, from the predictor cache
(gameId, gameDate, opponentAbbrev, homeRoadFlag, goals). -/
structure GameLogEntry where
  gameID : ℤ
  gameDate : Option ℤ
  opponentAbbrev : String
  homeRoadFlag : String
  goals : ℤ
deriving DecidableEq

instance : Inhabited GameLogEntry := ⟨⟨0, none, "", "", 0⟩⟩

/-- Per-team standings row used by the model (season, last-10 and
venue-split goals against, point percentage). -/
structure StandingsTeam where
  teamAbbrev : String
  gamesPlayed : ℤ
  goalAgainst : ℤ
  goalsFor : ℤ
  pointPctg : ℝ
  l10GamesPlayed : ℤ
  l10GoalsAgainst : ℤ
  l10GoalsFor : ℤ
  roadGoalsAgainst : ℤ
  roadGamesPlayed : ℤ
  homeGoalsAgainst : ℤ
  homeGamesPlayed : ℤ

/-- Standings map: association list keyed by team abbreviation. -/
abbrev Standings := List (String × StandingsTeam)

/-- Association-list lookup standing in for the Go map read. -/
def standingsFind (st : Standings) (k : String) : Option StandingsTeam :=
  match st with
  | [] => none
  | (a, t) :: rest => if a = k then some t else standingsFind rest k

/-- The next or current game; StartTimeUTC is modelled by its truncated UTC
day number, which is all the model reads from it. -/
structure Game where
  gameID : ℤ
  homeAbbrev : String
  awayAbbrev : String
  startDayUTC : ℤ
  gameState : String

/-- Opponent returns the non-WSH team abbreviation. -/
def Game.opponent (g : Game) : String :=
  if g.homeAbbrev = "WSH" then g.awayAbbrev else g.homeAbbrev

/-- IsHome returns true when the Capitals are the home team. -/
def Game.isHome (g : Game) : Bool :=
  g.homeAbbrev = "WSH"

/-- Constant CalibrationScale from the model package. -/
def CalibrationScale : ℝ := 1.0

/-- Constant leagueAvgSavePct from the model package. -/
def leagueAvgSavePct : ℝ := 0.905

/-- Go math.Round: round half away from zero, as an integer result. -/
noncomputable def goRound (x : ℝ) : ℤ :=
  if 0 ≤ x then ⌊x + 1 / 2⌋ else -⌊-x + 1 / 2⌋

/-- Go int(x) conversion on a float: truncation toward zero. -/
noncomputable def goTrunc (x : ℝ) : ℤ :=
  if 0 ≤ x then ⌊x⌋ else -⌊-x⌋

/-- clampPct clamps an integer percentage to the 15..75 band. -/
def clampPct (pct : ℤ) : ℤ :=
  if pct < 15 then 15 else if pct > 75 then 75 else pct

/-- leagueAvgGAFromStandings: league-average goals against per game, with the
3.0 fallback for an empty map or zero total games. -/
noncomputable def leagueAvgGAFromStandings (st : Standings) : ℝ :=
  if st.length = 0 then 3.0
  else
    let sumGA : ℤ := (st.map (fun p => p.2.goalAgainst)).sum
    let sumGP : ℤ := (st.map (fun p => p.2.gamesPlayed)).sum
    if sumGP = 0 then 3.0 else (sumGA : ℝ) / (sumGP : ℝ)

/-- effectiveOppGAPerGameVenue: venue-specific goals against per game, blended
with last-10 when at least 5 recent games are available. -/
noncomputable def effectiveOppGAPerGameVenue (t : StandingsTeam) (capsHome : Bool) : ℝ :=
  if t.gamesPlayed = 0 then 3.0
  else
    let venueGA : ℤ := if capsHome then t.roadGoalsAgainst else t.homeGoalsAgainst
    let venueGP : ℤ := if capsHome then t.roadGamesPlayed else t.homeGamesPlayed
    let full : ℝ := (t.goalAgainst : ℝ) / (t.gamesPlayed : ℝ)
    if venueGP ≥ 5 then
      let venuePerGame : ℝ := (venueGA : ℝ) / (venueGP : ℝ)
      if t.l10GamesPlayed ≥ 5 then
        0.7 * venuePerGame + 0.3 * ((t.l10GoalsAgainst : ℝ) / (t.l10GamesPlayed : ℝ))
      else venuePerGame
    else if t.l10GamesPlayed ≥ 5 then
      0.7 * full + 0.3 * ((t.l10GoalsAgainst : ℝ) / (t.l10GamesPlayed : ℝ))
    else full

/-- The start of the capped baseline window: the last 82 entries at most. -/
def baselineStartIdx (log : List GameLogEntry) : ℕ :=
  if log.length > 82 then log.length - 82 else 0

/-- Baseline goals per game over the capped window, as computed inline in
predictHeuristic (total goals over window length). -/
noncomputable def baselineGPG (log : List GameLogEntry) : ℝ :=
  (((log.drop (baselineStartIdx log)).map (fun e => e.goals)).sum : ℝ) /
    ((log.length - baselineStartIdx log : ℕ) : ℝ)

/-- baseProb: Poisson no-score complement of the baseline rate. -/
noncomputable def baseProb (log : List GameLogEntry) : ℝ :=
  1 - Real.exp (-(baselineGPG log))

/-- Opponent factor: venue-specific goals against relative to the league
average, clamped as in the source (cap above at 1.35 first, then raise
below at 0.75); 1.0 when the opponent is absent or has no games. -/
noncomputable def oppFactor (g : Game) (st : Standings) : ℝ :=
  match standingsFind st g.opponent with
  | some t =>
    if 0 < t.gamesPlayed then
      let o := effectiveOppGAPerGameVenue t g.isHome / leagueAvgGAFromStandings st
      let o1 := if o > 1.35 then 1.35 else o
      if o1 < 0.75 then 0.75 else o1
    else 1.0
  | none => 1.0

/-- Home factor: 1.05 at home, 0.95 on the road. -/
def homeFactor (g : Game) : ℝ :=
  if g.isHome then 1.05 else 0.95

/-- Window size for the recent-form factor: last 5 games or fewer. -/
def recentWindow (log : List GameLogEntry) : ℕ :=
  min 5 log.length

/-- Goals over the recent-form window, taken from the end of the log. -/
def recentGoalsOf (log : List GameLogEntry) : ℤ :=
  ((log.drop (log.length - recentWindow log)).map (fun e => e.goals)).sum

/-- Recent-form factor: recent rate over baseline rate, capped above at 1.4
then raised below at 0.6; 1.0 when the window is empty or baseline is zero. -/
noncomputable def recentFactor (log : List GameLogEntry) : ℝ :=
  if 0 < recentWindow log ∧ 0 < baselineGPG log then
    let r := ((recentGoalsOf log : ℝ) / (recentWindow log : ℝ)) / baselineGPG log
    let r1 := if r > 1.4 then 1.4 else r
    if r1 < 0.6 then 0.6 else r1
  else 1.0

/-- The scan of oviVsOpponentFactor: walk the log from the most recent entry,
accumulating goals and games against the given opponent, stopping at 10
games. Called on the reversed log. -/
def vsOppScan (opponent : String) : List GameLogEntry → ℤ → ℕ → ℤ × ℕ
  | [], goals, games => (goals, games)
  | e :: rest, goals, games =>
    if games ≥ 10 then (goals, games)
    else if e.opponentAbbrev = opponent then
      vsOppScan opponent rest (goals + e.goals) (games + 1)
    else vsOppScan opponent rest goals games

/-- oviVsOpponentFactor: historical rate against this opponent over baseline,
raised below at 0.85 then capped above at 1.15; 1.0 when fewer than 3
meetings were found or baseline is not positive. -/
noncomputable def oviVsOpponentFactor (log : List GameLogEntry) (opponent : String)
    (gpg : ℝ) : ℝ :=
  let s := vsOppScan opponent log.reverse 0 0
  if s.2 < 3 ∨ gpg ≤ 0 then 1.0
  else
    let ratio := ((s.1 : ℝ) / (s.2 : ℝ)) / gpg
    let r1 := if ratio < 0.85 then 0.85 else ratio
    if r1 > 1.15 then 1.15 else r1

/-- Opponent strength factor from point percentage, raised below at 0.92 then
capped above at 1.08; 1.0 when the opponent or its point percentage is
unavailable. -/
noncomputable def pointStrengthFactor (g : Game) (st : Standings) : ℝ :=
  match standingsFind st g.opponent with
  | some t =>
    if t.pointPctg > 0 then
      let p := 0.96 + 0.08 * t.pointPctg
      let p1 := if p < 0.92 then 0.92 else p
      if p1 > 1.08 then 1.08 else p1
    else 1.0
  | none => 1.0

/-- leagueAvgPaceFromStandings: league-average of goals for plus against per
game, halved, with the 3.0 fallback. -/
noncomputable def leagueAvgPaceFromStandings (st : Standings) : ℝ :=
  if st.length = 0 then 3.0
  else
    let sumGF : ℤ := (st.map (fun p => p.2.goalsFor)).sum
    let sumGA : ℤ := (st.map (fun p => p.2.goalAgainst)).sum
    let sumGP : ℤ := (st.map (fun p => p.2.gamesPlayed)).sum
    if sumGP = 0 then 3.0
    else ((sumGF : ℝ) + (sumGA : ℝ)) / ((2 * sumGP : ℤ) : ℝ)

/-- paceFactorForOpponent: opponent last-10 event rate against league pace,
raised below at 0.97 then capped above at 1.03; 1.0 without 5 recent games
or with nonpositive league pace. -/
noncomputable def paceFactorForOpponent (st : Standings) (opponent : String) : ℝ :=
  match standingsFind st opponent with
  | none => 1.0
  | some t =>
    if t.l10GamesPlayed < 5 then 1.0
    else
      let oppPace := ((t.l10GoalsFor : ℝ) + (t.l10GoalsAgainst : ℝ)) /
        (2 * (t.l10GamesPlayed : ℝ))
      let leaguePace := leagueAvgPaceFromStandings st
      if leaguePace ≤ 0 then 1.0
      else
        let ratio := oppPace / leaguePace
        let r1 := if ratio < 0.97 then 0.97 else ratio
        if r1 > 1.03 then 1.03 else r1

/-- restFactor: 0.92 when the gap from the last played date to the game day
is at most one day, 1.02 when at least two days; 1.0 for an empty log or an
unparseable last date. -/
def restFactor (g : Game) (log : List GameLogEntry) : ℝ :=
  match log.getLast? with
  | none => 1.0
  | some last =>
    match last.gameDate with
    | none => 1.0
    | some lastDay =>
      let daysBetween : ℤ := g.startDayUTC - lastDay
      if daysBetween ≤ 1 then 0.92
      else if daysBetween ≥ 2 then 1.02
      else 1.0

/-- Goalie factor: league-average save percentage over the opposing save
percentage, raised below at 0.88 then capped above at 1.12; 1.0 when the save
percentage is outside the open interval from 0 to 1. -/
noncomputable def goalieFactor (goalieSavePct : ℝ) : ℝ :=
  if 0 < goalieSavePct ∧ goalieSavePct < 1 then
    let gf := leagueAvgSavePct / goalieSavePct
    let g1 := if gf < 0.88 then 0.88 else gf
    if g1 > 1.12 then 1.12 else g1
  else 1.0

/-- The heuristic product before rounding: baseline probability times all
multiplicative adjustment factors, in source order. -/
noncomputable def heuristicProb (g : Game) (log : List GameLogEntry)
    (st : Standings) (goalieSavePct : ℝ) : ℝ :=
  baseProb log * oppFactor g st * homeFactor g * recentFactor log *
    oviVsOpponentFactor log g.opponent (baselineGPG log) *
    pointStrengthFactor g st * paceFactorForOpponent st g.opponent *
    restFactor g log * goalieFactor goalieSavePct * CalibrationScale

/-- predictHeuristic: the heuristic product as a rounded percentage, clamped
to 15..75. -/
noncomputable def predictHeuristic (g : Game) (log : List GameLogEntry)
    (st : Standings) (goalieSavePct : ℝ) : ℤ :=
  clampPct (goRound (heuristicProb g log st goalieSavePct * 100))

/-- baselineGPGFrom: baseline goals per game over the last maxGames entries,
with the 0.4 fallback for an empty log. -/
noncomputable def baselineGPGFrom (log : List GameLogEntry) (maxGames : ℕ) : ℝ :=
  if log.length = 0 then 0.4
  else
    let start := if log.length > maxGames then log.length - maxGames else 0
    let goals : ℤ := ((log.drop start).map (fun e => e.goals)).sum
    let n : ℕ := log.length - start
    if n = 0 then 0.4 else (goals : ℝ) / (n : ℝ)

/-- Go dot product of two equal-length float slices. -/
def dot (a b : List ℝ) : ℝ :=
  (List.zipWith (fun x y => x * y) a b).sum

/-- sigmoid with the clipping used by the source: 1 above 20, 0 below -20. -/
noncomputable def sigmoid (z : ℝ) : ℝ :=
  if z > 20 then 1.0
  else if z < -20 then 0.0
  else 1.0 / (1.0 + Real.exp (-z))

/-- Learning rate logisticLR of the logistic trainer. -/
def logisticLR : ℝ := 0.15

/-- Pass count logisticIters of the logistic trainer. -/
def logisticIters : ℕ := 400

/-- Minimum game-log length minGamesForLogistic for the logistic path. -/
def minGamesForLogistic : ℕ := 50

/-- A training sample: feature vector and 0-or-1 label. -/
abbrev LogSample := List ℝ × ℝ

/-- The feature vector built for one historical entry from its prior games:
intercept, home flag, opponent GA ratio, baseline rate, recent-form ratio. -/
noncomputable def sampleFeatures (st : Standings) (leagueAvgGA : ℝ)
    (prior : List GameLogEntry) (e : GameLogEntry) : List ℝ :=
  let gpg := baselineGPGFrom prior 82
  let recentN : ℕ := min 5 prior.length
  let recentGoals : ℤ := ((prior.drop (prior.length - recentN)).map (fun x => x.goals)).sum
  let recentRatio : ℝ :=
    if 0 < gpg ∧ 0 < recentN then ((recentGoals : ℝ) / (recentN : ℝ)) / gpg else 1.0
  let oppGA : ℝ :=
    match standingsFind st e.opponentAbbrev with
    | some t =>
      if 0 < t.gamesPlayed then effectiveOppGAPerGameVenue t (e.homeRoadFlag = "H")
      else leagueAvgGA
    | none => leagueAvgGA
  let home : ℝ := if e.homeRoadFlag = "H" then 1.0 else 0.0
  [1.0, home, oppGA / leagueAvgGA, gpg, recentRatio]

/-- The 0-or-1 label of a sample: whether the subject scored in that game. -/
def sampleLabel (e : GameLogEntry) : ℝ :=
  if e.goals > 0 then 1.0 else 0.0

/-- buildSamples: one sample for each index from 6 to the end of the log,
with features computed from the strictly prior entries. -/
noncomputable def buildSamples (log : List GameLogEntry) (st : Standings)
    (leagueAvgGA : ℝ) : List LogSample :=
  (List.range' 6 (log.length - 6)).map (fun i =>
    (sampleFeatures st leagueAvgGA (log.take i) (log.getD i default),
     sampleLabel (log.getD i default)))

/-- One in-place update of the weight vector for one sample, exactly as the
inner loop of the trainer: the gradient is taken at the current weights and
applied immediately, scaled by the learning rate over the sample count. -/
noncomputable def stepSample (nSamples : ℕ) (w : List ℝ) (s : LogSample) : List ℝ :=
  let z := dot w s.1
  let p := sigmoid z
  let err := p - s.2
  List.zipWith (fun wk xk => wk - logisticLR * err * xk / (nSamples : ℝ)) w s.1

/-- One pass of the trainer over all samples in order. -/
noncomputable def trainPass (samples : List LogSample) (w : List ℝ) : List ℝ :=
  samples.foldl (stepSample samples.length) w

/-- trainLogistic: the trainer of LogisticPredict, 400 passes from the
all-zero weight vector, each pass updating per sample sequentially. -/
noncomputable def trainLogistic (samples : List LogSample) : List ℝ :=
  (trainPass samples)^[logisticIters] [0, 0, 0, 0, 0]

/-- LogisticPredict: -1 when fewer than 50 log entries or fewer than 20
built samples; otherwise the trained model evaluated on the upcoming game,
rounded and clamped to 15..75. -/
noncomputable def LogisticPredict (g : Game) (log : List GameLogEntry)
    (st : Standings) : ℤ :=
  if log.length < minGamesForLogistic then -1
  else
    let leagueAvgGA := leagueAvgGAFromStandings st
    let samples := buildSamples log st leagueAvgGA
    if samples.length < 20 then -1
    else
      let w := trainLogistic samples
      let gpg := baselineGPGFrom log 82
      let n : ℕ := min 5 log.length
      let recentGoals : ℤ := ((log.drop (log.length - n)).map (fun x => x.goals)).sum
      let recentRatio : ℝ :=
        if 0 < gpg ∧ 0 < n then ((recentGoals : ℝ) / (n : ℝ)) / gpg else 1.0
      let oppGA : ℝ :=
        match standingsFind st g.opponent with
        | some t =>
          if 0 < t.gamesPlayed then effectiveOppGAPerGameVenue t g.isHome
          else leagueAvgGA
        | none => leagueAvgGA
      let home : ℝ := if g.isHome then 1.0 else 0.0
      let x : List ℝ := [1.0, home, oppGA / leagueAvgGA, gpg, recentRatio]
      let p := sigmoid (dot w x)
      let pct := goRound (p * 100)
      let p1 := if pct < 15 then 15 else pct
      if p1 > 75 then 75 else p1

/-- Predict: 45 for an empty log; otherwise the heuristic, blended 50/50
with the logistic value when that one is available. -/
noncomputable def Predict (g : Game) (log : List GameLogEntry)
    (st : Standings) (goalieSavePct : ℝ) : ℤ :=
  if log.length = 0 then 45
  else
    let heuristic := predictHeuristic g log st goalieSavePct
    let logPct := LogisticPredict g log st
    if logPct ≥ 0 then clampPct ((heuristic + logPct) / 2)
    else heuristic

/-- Market blend from main.run: 85 percent model and 15 percent implied
probability, truncated with the +0.5 rounding trick, clamped to 15..75. -/
noncomputable def blendWithMarket (pct implied : ℤ) : ℤ :=
  let blended := goTrunc (0.85 * (pct : ℝ) + 0.15 * (implied : ℝ) + 0.5)
  let b1 := if blended < 15 then 15 else blended
  if b1 > 75 then 75 else b1

/-- Calibration application from main.run: a scale of exactly 1.0 leaves the
percentage untouched, any other scale multiplies, rounds and reclamps. -/
noncomputable def applyCalibration (pct : ℤ) (scale : ℝ) : ℤ :=
  if scale = 1.0 then pct
  else
    let calibrated := goTrunc ((pct : ℝ) * scale + 0.5)
    let c1 := if calibrated < 15 then 15 else calibrated
    if c1 > 75 then 75 else c1

/-- One entry of the calibration log: predicted percentage and scored flag.
An unparseable entry is modelled as none and skipped by the sums. -/
structure CalEntry where
  predPct : ℤ
  scored : ℤ
deriving DecidableEq

/-- Sum of the scored flags over the parseable calibration entries. -/
def calSumScored (entries : List (Option CalEntry)) : ℤ :=
  (entries.map (fun e => match e with | some c => c.scored | none => 0)).sum

/-- Sum of the predicted probabilities over the parseable entries. -/
noncomputable def calSumPredProb (entries : List (Option CalEntry)) : ℝ :=
  (entries.map (fun e => match e with | some c => (c.predPct : ℝ) / 100 | none => 0)).sum

/-- calibrationScale from main: 1.0 below 10 entries or with a nonpositive
predicted-probability sum, otherwise hit rate over mean predicted
probability, raised below at 0.8 then capped above at 1.2. Both averages
divide by the full entry count, unparseable entries included. -/
noncomputable def calibrationScale (entries : List (Option CalEntry)) : ℝ :=
  if entries.length < 10 then 1.0
  else
    let sumScored := calSumScored entries
    let sumPredProb := calSumPredProb entries
    if sumPredProb ≤ 0 then 1.0
    else
      let hitRate := (sumScored : ℝ) / (entries.length : ℝ)
      let meanPred := sumPredProb / (entries.length : ℝ)
      let scale := hitRate / meanPred
      let s1 := if scale < 0.8 then 0.8 else scale
      if s1 > 1.2 then 1.2 else s1

/-- The shared de-duplication store of the ingestor: the set of
(game id, goals-to-date) members of the per-game Redis sets. -/
abbrev SeenStore := List (ℤ × ℤ)

/-- MarkGoalSeen: SAdd semantics on the seen set. Returns true and an
unchanged store for a member already present, false and the extended store
the first time; the member stays added even when the later Expire fails. -/
def MarkGoalSeen (store : SeenStore) (gameID goalsToDate : ℤ) : Bool × SeenStore :=
  if (gameID, goalsToDate) ∈ store then (true, store)
  else (false, (gameID, goalsToDate) :: store)

/-- One pass of the ingestor goal-detection step for one reported goal on
the failure-free path: mark it seen, and append the event to the queue only
when it had not been seen. -/
def processGoal (store : SeenStore) (queue : List (ℤ × ℤ))
    (gameID goalsToDate : ℤ) : SeenStore × List (ℤ × ℤ) :=
  let r := MarkGoalSeen store gameID goalsToDate
  if r.1 then (r.2, queue)
  else (r.2, queue ++ [(gameID, goalsToDate)])

/-- Evaluator state: the last-reported marker and the post-game stream,
messages tagged by game id. -/
structure EvalState where
  lastReported : ℤ
  stream : List ℤ
deriving DecidableEq

/-- Environment of one evaluator tick: redis ping outcome, the completed
game when one exists, whether the boxscore stats were available, and the
outcomes of the stream append and of the marker write. -/
structure EvalTick where
  pingOk : Bool
  game : Option ℤ
  statsOk : Bool
  xaddOk : Bool
  setOk : Bool
deriving DecidableEq

/-- One evaluator run: early returns on ping failure, missing game, an
already-covered marker or missing stats; on a successful append the summary
goes on the stream, and the marker advances only when its write succeeds. -/
def evaluatorRun (st : EvalState) (t : EvalTick) : EvalState :=
  if t.pingOk = false then st
  else
    match t.game with
    | none => st
    | some gid =>
      if st.lastReported ≥ gid then st
      else if t.statsOk = false then st
      else if t.xaddOk = false then st
      else
        { lastReported := if t.setOk then gid else st.lastReported,
          stream := st.stream ++ [gid] }

/-- A sequence of evaluator ticks. -/
def evaluatorTrace (st : EvalState) (ts : List EvalTick) : EvalState :=
  ts.foldl evaluatorRun st

/-- Reference trainer following the spec wording for the training step: in
each of 400 passes the gradient (p - y) x is averaged over all samples,
evaluated at the pass starting weights, and applied once with learning rate
0.15. This is the accumulated (not yet averaged) gradient at w. -/
noncomputable def refBatchGrad (samples : List LogSample) (w : List ℝ) : List ℝ :=
  samples.foldl
    (fun acc s =>
      List.zipWith (fun a gk => a + gk)
        acc (s.1.map (fun xk => (sigmoid (dot w s.1) - s.2) * xk)))
    (List.replicate 5 0)

/-- Reference full-batch pass: the averaged gradient at the pass starting
weights applied once with learning rate 0.15. -/
noncomputable def refBatchStep (samples : List LogSample) (w : List ℝ) : List ℝ :=
  List.zipWith (fun wk gk => wk - logisticLR * (gk / (samples.length : ℝ)))
    w (refBatchGrad samples w)

/-- Reference full-batch training: 400 passes from the all-zero vector. -/
noncomputable def refBatchTrain (samples : List LogSample) : List ℝ :=
  (refBatchStep samples)^[logisticIters] [0, 0, 0, 0, 0]

/-- Reference incremental (per-sample) descent step: the gradient (p - y) x
of one sample, evaluated at the current weights, applied immediately with
learning rate 0.15 scaled by the sample count. -/
noncomputable def refIncStep (n : ℕ) (w : List ℝ) (s : LogSample) : List ℝ :=
  List.zipWith (fun wk gk => wk - logisticLR / (n : ℝ) * gk)
    w (s.1.map (fun xk => (sigmoid (dot w s.1) - s.2) * xk))

/-- Reference incremental training: 400 in-order passes of per-sample
updates from the all-zero vector. -/
noncomputable def refIncTrain (samples : List LogSample) : List ℝ :=
  (fun w => samples.foldl (refIncStep samples.length) w)^[logisticIters]
    [0, 0, 0, 0, 0]

/-- Two training samples with identical features and opposite labels; the
large fourth feature keeps every activation after the first update in the
saturated zone of the clipped sigmoid, so both trainers evaluate exactly. -/
noncomputable def exSamples : List LogSample :=
  [([1, 0, 0, 10000, 0], 0), ([1, 0, 0, 10000, 0], 1)]

/-- Invariant of the evaluator loop for one game id: the game appears at
most once on the stream, and once it appears the marker has reached it. -/
def evalInv (st : EvalState) (gid : ℤ) : Prop :=
  st.stream.count gid ≤ 1 ∧ (1 ≤ st.stream.count gid → gid ≤ st.lastReported)

/- Shared bound lemmas. -/

theorem clampPct_bounds (x : ℤ) : 15 ≤ clampPct x ∧ clampPct x ≤ 75 := by
  unfold clampPct
  split_ifs <;> omega

theorem clamp1575_bounds (x : ℤ) :
    15 ≤ (if (if x < 15 then 15 else x) > 75 then 75 else if x < 15 then 15 else x) ∧
      (if (if x < 15 then 15 else x) > 75 then 75 else if x < 15 then 15 else x) ≤ 75 := by
  split_ifs <;> omega

theorem predictHeuristic_bounds (g : Game) (log : List GameLogEntry)
    (st : Standings) (sv : ℝ) :
    15 ≤ predictHeuristic g log st sv ∧ predictHeuristic g log st sv ≤ 75 := by
  unfold predictHeuristic
  exact clampPct_bounds _

theorem logisticPredict_cases (g : Game) (log : List GameLogEntry) (st : Standings) :
    LogisticPredict g log st = -1 ∨
      (15 ≤ LogisticPredict g log st ∧ LogisticPredict g log st ≤ 75) := by
  unfold LogisticPredict
  by_cases h1 : log.length < minGamesForLogistic
  · rw [if_pos h1]
    exact Or.inl rfl
  · rw [if_neg h1]
    dsimp only
    by_cases h2 : (buildSamples log st (leagueAvgGAFromStandings st)).length < 20
    · rw [if_pos h2]
      exact Or.inl rfl
    · rw [if_neg h2]
      exact Or.inr (clamp1575_bounds _)

theorem predict_bounds (g : Game) (log : List GameLogEntry)
    (st : Standings) (sv : ℝ) :
    15 ≤ Predict g log st sv ∧ Predict g log st sv ≤ 75 := by
  unfold Predict
  dsimp only
  split_ifs with h1 h2
  · norm_num
  · exact clampPct_bounds _
  · exact predictHeuristic_bounds g log st sv

theorem blendWithMarket_bounds (p implied : ℤ) :
    15 ≤ blendWithMarket p implied ∧ blendWithMarket p implied ≤ 75 := by
  unfold blendWithMarket
  exact clamp1575_bounds _

theorem applyCalibration_bounds (p : ℤ) (scale : ℝ)
    (hp : 15 ≤ p ∧ p ≤ 75) :
    15 ≤ applyCalibration p scale ∧ applyCalibration p scale ≤ 75 := by
  unfold applyCalibration
  split_ifs with h
  · exact hp
  · exact clamp1575_bounds _

/-- C1: at every pipeline stage — the heuristic estimate, the logistic
estimate when it is available, the blend returned by Predict, the
market-blended value, and the calibration-scaled value applied to either of
the two values the caller can feed it — the percentage is an integer between
15 and 75. -/
theorem pipeline_pct_bounds (g : Game) (log : List GameLogEntry)
    (st : Standings) (sv : ℝ) (implied : ℤ) (scale : ℝ) :
    (15 ≤ Predict g log st sv ∧ Predict g log st sv ≤ 75) ∧
    (15 ≤ predictHeuristic g log st sv ∧ predictHeuristic g log st sv ≤ 75) ∧
    (LogisticPredict g log st = -1 ∨
      (15 ≤ LogisticPredict g log st ∧ LogisticPredict g log st ≤ 75)) ∧
    (15 ≤ blendWithMarket (Predict g log st sv) implied ∧
      blendWithMarket (Predict g log st sv) implied ≤ 75) ∧
    (15 ≤ applyCalibration (Predict g log st sv) scale ∧
      applyCalibration (Predict g log st sv) scale ≤ 75) ∧
    (15 ≤ applyCalibration (blendWithMarket (Predict g log st sv) implied) scale ∧
      applyCalibration (blendWithMarket (Predict g log st sv) implied) scale ≤ 75) := by
  refine ⟨predict_bounds g log st sv, predictHeuristic_bounds g log st sv,
    logisticPredict_cases g log st, blendWithMarket_bounds _ implied,
    applyCalibration_bounds _ scale (predict_bounds g log st sv),
    applyCalibration_bounds _ scale (blendWithMarket_bounds _ implied)⟩

/-- C2: with an empty game log, Predict returns 45 for every game, every
standings map and every goalie save percentage. -/
theorem predict_empty_log (g : Game) (st : Standings) (sv : ℝ) :
    Predict g ([] : List GameLogEntry) st sv = 45 := by
  simp [Predict]

/- Range lemmas for the individual heuristic factors. -/

theorem oppFactor_mem (g : Game) (st : Standings) :
    0.75 ≤ oppFactor g st ∧ oppFactor g st ≤ 1.35 := by
  rcases hfind : standingsFind st g.opponent with _ | t <;>
    unfold oppFactor <;> rw [hfind] <;> dsimp only
  · norm_num
  · split_ifs <;> constructor <;> (try norm_num) <;> linarith

theorem recentFactor_mem (log : List GameLogEntry) :
    0.6 ≤ recentFactor log ∧ recentFactor log ≤ 1.4 := by
  unfold recentFactor
  dsimp only
  split_ifs <;> constructor <;> (try norm_num) <;> linarith

theorem oviVsOpponentFactor_mem (log : List GameLogEntry) (opponent : String)
    (gpg : ℝ) :
    0.85 ≤ oviVsOpponentFactor log opponent gpg ∧
      oviVsOpponentFactor log opponent gpg ≤ 1.15 := by
  unfold oviVsOpponentFactor
  dsimp only
  split_ifs <;> constructor <;> (try norm_num) <;> linarith

theorem pointStrengthFactor_mem (g : Game) (st : Standings) :
    0.92 ≤ pointStrengthFactor g st ∧ pointStrengthFactor g st ≤ 1.08 := by
  rcases hfind : standingsFind st g.opponent with _ | t <;>
    unfold pointStrengthFactor <;> rw [hfind] <;> dsimp only
  · norm_num
  · split_ifs <;> constructor <;> (try norm_num) <;> linarith

theorem paceFactorForOpponent_mem (st : Standings) (opponent : String) :
    0.97 ≤ paceFactorForOpponent st opponent ∧
      paceFactorForOpponent st opponent ≤ 1.03 := by
  rcases hfind : standingsFind st opponent with _ | t <;>
    unfold paceFactorForOpponent <;> rw [hfind] <;> dsimp only
  · norm_num
  · split_ifs <;> constructor <;> (try norm_num) <;> linarith

theorem goalieFactor_mem (sv : ℝ) :
    0.88 ≤ goalieFactor sv ∧ goalieFactor sv ≤ 1.12 := by
  unfold goalieFactor
  dsimp only
  split_ifs <;> constructor <;> (try norm_num) <;> linarith

/-- C3: every multiplicative factor of the heuristic stays inside its
documented range for all inputs, however extreme: opponent factor in
0.75..1.35, recent-form factor in 0.6..1.4, subject-versus-opponent factor
in 0.85..1.15, opponent-strength factor in 0.92..1.08, pace factor in
0.97..1.03, goalie factor in 0.88..1.12. -/
theorem heuristic_factor_ranges (g : Game) (st : Standings)
    (log : List GameLogEntry) (opponent : String) (gpg sv : ℝ) :
    (0.75 ≤ oppFactor g st ∧ oppFactor g st ≤ 1.35) ∧
    (0.6 ≤ recentFactor log ∧ recentFactor log ≤ 1.4) ∧
    (0.85 ≤ oviVsOpponentFactor log opponent gpg ∧
      oviVsOpponentFactor log opponent gpg ≤ 1.15) ∧
    (0.92 ≤ pointStrengthFactor g st ∧ pointStrengthFactor g st ≤ 1.08) ∧
    (0.97 ≤ paceFactorForOpponent st opponent ∧
      paceFactorForOpponent st opponent ≤ 1.03) ∧
    (0.88 ≤ goalieFactor sv ∧ goalieFactor sv ≤ 1.12) :=
  ⟨oppFactor_mem g st, recentFactor_mem log,
    oviVsOpponentFactor_mem log opponent gpg, pointStrengthFactor_mem g st,
    paceFactorForOpponent_mem st opponent, goalieFactor_mem sv⟩

/- Monotonicity and sign lemmas for rounding and clamping. -/

theorem goRound_mono {x y : ℝ} (h : x ≤ y) : goRound x ≤ goRound y := by
  unfold goRound
  split_ifs with h1 h2 h2
  · exact Int.floor_le_floor (by linarith)
  · exact absurd (le_trans h1 h) h2
  · have hl : 0 ≤ ⌊-x + 1 / 2⌋ := Int.le_floor.mpr (by push_cast; linarith)
    have hr : 0 ≤ ⌊y + 1 / 2⌋ := Int.le_floor.mpr (by push_cast; linarith)
    omega
  · have := Int.floor_le_floor (show -y + 1 / 2 ≤ -x + 1 / 2 by linarith)
    omega

theorem goRound_nonpos {x : ℝ} (h : x ≤ 0) : goRound x ≤ 0 := by
  unfold goRound
  split_ifs with h1
  · have hx : x = 0 := le_antisymm h h1
    subst hx
    have hfl : ⌊(0 : ℝ) + 1 / 2⌋ = 0 := by
      rw [Int.floor_eq_zero_iff]
      constructor <;> norm_num
    omega
  · have : 0 ≤ ⌊-x + 1 / 2⌋ := Int.le_floor.mpr (by push_cast; linarith)
    omega

theorem clampPct_mono {x y : ℤ} (h : x ≤ y) : clampPct x ≤ clampPct y := by
  unfold clampPct
  split_ifs <;> omega

theorem clampPct_of_nonpos {x : ℤ} (h : x ≤ 0) : clampPct x = 15 := by
  unfold clampPct
  split_ifs <;> omega

theorem homeFactor_nonneg (g : Game) : 0 ≤ homeFactor g := by
  unfold homeFactor
  split_ifs <;> norm_num

theorem restFactor_nonneg (g : Game) (log : List GameLogEntry) :
    0 ≤ restFactor g log := by
  unfold restFactor
  cases log.getLast? with
  | none => norm_num
  | some last =>
    dsimp only
    cases last.gameDate with
    | none => norm_num
    | some d =>
      dsimp only
      split_ifs <;> norm_num

theorem goalieFactor_zero : goalieFactor 0 = 1 := by
  unfold goalieFactor
  have h : ¬((0 : ℝ) < 0 ∧ (0 : ℝ) < 1) := by norm_num
  rw [if_neg h]
  norm_num

theorem goalieFactor_le_one {sv : ℝ} (h1 : 0.905 ≤ sv) (h2 : sv < 1) :
    goalieFactor sv ≤ 1 := by
  unfold goalieFactor
  rw [if_pos ⟨by linarith, h2⟩]
  dsimp only
  have hgf : leagueAvgSavePct / sv ≤ 1 := by
    rw [div_le_one (by linarith)]
    unfold leagueAvgSavePct
    linarith
  split_ifs <;> linarith

/-- C4 counterexample: a same-day gap between the last played date and the
game day yields the back-to-back factor 0.92, not the neutral 1.0 the claim
asserts for that case. -/
theorem restFactor_same_day_not_neutral :
    restFactor ⟨1, "WSH", "PIT", 0, "FUT"⟩ [⟨1, some 0, "PIT", "H", 0⟩] = 0.92 ∧
      ((0.92 : ℝ) ≠ 1) := by
  constructor
  · rfl
  · norm_num

/-- C4 (amended): with a nonempty log whose last date parses, the rest
factor is 0.92 whenever the day gap is at most 1 — a same-day or negative
gap included — and 1.02 whenever the gap is at least 2; the neutral 1.0 is
reserved for an empty log or an unparseable date, the remaining branch
being unreachable for integer gaps. -/
theorem restFactor_gap_cases (g : Game) (log : List GameLogEntry)
    (last : GameLogEntry) (d : ℤ) (hlast : log.getLast? = some last)
    (hd : last.gameDate = some d) :
    (g.startDayUTC - d ≤ 1 → restFactor g log = 0.92) ∧
    (2 ≤ g.startDayUTC - d → restFactor g log = 1.02) := by
  unfold restFactor
  rw [hlast]
  dsimp only
  rw [hd]
  dsimp only
  constructor
  · intro h
    rw [if_pos h]
  · intro h
    rw [if_neg (by omega), if_pos (by omega)]

/-- C4 witness: a one-day gap gives 0.92 and a three-day gap gives 1.02. -/
theorem restFactor_gap_cases_witness :
    restFactor ⟨2, "WSH", "PIT", 6, "FUT"⟩ [⟨1, some 5, "PIT", "H", 0⟩] = 0.92 ∧
      restFactor ⟨3, "WSH", "BOS", 8, "FUT"⟩ [⟨1, some 5, "BOS", "H", 0⟩] = 1.02 :=
  ⟨(restFactor_gap_cases ⟨2, "WSH", "PIT", 6, "FUT"⟩ [⟨1, some 5, "PIT", "H", 0⟩]
      ⟨1, some 5, "PIT", "H", 0⟩ 5 rfl rfl).1 (by norm_num),
   (restFactor_gap_cases ⟨3, "WSH", "BOS", 8, "FUT"⟩ [⟨1, some 5, "BOS", "H", 0⟩]
      ⟨1, some 5, "BOS", "H", 0⟩ 5 rfl rfl).2 (by norm_num)⟩

theorem buildSamples_length (log : List GameLogEntry) (st : Standings)
    (lga : ℝ) : (buildSamples log st lga).length = log.length - 6 := by
  simp [buildSamples]

/-- C5: LogisticPredict returns the sentinel -1 whenever the log has fewer
than 50 entries or fewer than 20 derivable samples, and a value between 15
and 75 whenever the log has at least 50 entries and 20 derivable samples. -/
theorem logisticPredict_sentinel_and_range (g : Game)
    (log : List GameLogEntry) (st : Standings) :
    ((log.length < minGamesForLogistic ∨
        (buildSamples log st (leagueAvgGAFromStandings st)).length < 20) →
      LogisticPredict g log st = -1) ∧
    ((minGamesForLogistic ≤ log.length ∧
        20 ≤ (buildSamples log st (leagueAvgGAFromStandings st)).length) →
      15 ≤ LogisticPredict g log st ∧ LogisticPredict g log st ≤ 75) := by
  constructor
  · intro h
    unfold LogisticPredict
    by_cases h1 : log.length < minGamesForLogistic
    · rw [if_pos h1]
    · rw [if_neg h1]
      dsimp only
      rcases h with h | h
      · exact absurd h h1
      · rw [if_pos h]
  · intro h
    unfold LogisticPredict
    rw [if_neg (by omega)]
    dsimp only
    rw [if_neg (by omega)]
    exact clamp1575_bounds _

/-- C5 witness: a 49-entry log yields the sentinel and a 50-entry log
yields a value in the 15..75 band. -/
theorem logisticPredict_sentinel_and_range_witness :
    LogisticPredict ⟨1, "WSH", "PIT", 0, "FUT"⟩
        (List.replicate 49 ⟨1, some 0, "PIT", "H", 0⟩) [] = -1 ∧
      (15 ≤ LogisticPredict ⟨1, "WSH", "PIT", 0, "FUT"⟩
          (List.replicate 50 ⟨1, some 0, "PIT", "H", 0⟩) [] ∧
        LogisticPredict ⟨1, "WSH", "PIT", 0, "FUT"⟩
          (List.replicate 50 ⟨1, some 0, "PIT", "H", 0⟩) [] ≤ 75) := by
  constructor
  · exact (logisticPredict_sentinel_and_range _ _ _).1
      (Or.inl (by norm_num [minGamesForLogistic]))
  · exact (logisticPredict_sentinel_and_range _ _ _).2
      ⟨by norm_num [minGamesForLogistic],
       by rw [buildSamples_length]; norm_num⟩

/-- C7: the calibration scale is exactly 1.0 below 10 entries, and for
exactly 10 entries totalling 6 hits and a predicted-probability sum of 5 —
hit rate 0.6 and mean prediction 0.5 — it is exactly 1.2. -/
theorem calibrationScale_spec :
    (∀ entries : List (Option CalEntry), entries.length < 10 →
      calibrationScale entries = 1.0) ∧
    (∀ entries : List (Option CalEntry), entries.length = 10 →
      calSumScored entries = 6 → calSumPredProb entries = 5 →
      calibrationScale entries = 1.2) := by
  constructor
  · intro entries h
    unfold calibrationScale
    rw [if_pos h]
  · intro entries hlen h6 h5
    unfold calibrationScale
    rw [if_neg (by omega)]
    dsimp only
    rw [h6, h5, hlen]
    norm_num

/-- C7 witness: nine entries give scale 1.0; ten entries with six hits at a
50 percent prediction each give scale 1.2. -/
theorem calibrationScale_spec_witness :
    calibrationScale (List.replicate 9 (some ⟨50, 1⟩)) = 1.0 ∧
      calibrationScale
        [some ⟨50, 1⟩, some ⟨50, 1⟩, some ⟨50, 1⟩, some ⟨50, 1⟩, some ⟨50, 1⟩,
         some ⟨50, 1⟩, some ⟨50, 0⟩, some ⟨50, 0⟩, some ⟨50, 0⟩,
         some ⟨50, 0⟩] = 1.2 := by
  constructor
  · exact calibrationScale_spec.1 _ (by norm_num)
  · exact calibrationScale_spec.2 _ (by norm_num) (by decide)
      (by norm_num [calSumPredProb])

/-- C9: a (game id, goals-to-date) pair not yet in the shared store is
reported unseen exactly once and enqueued exactly once; any later
processing of the same pair — same cycle, later cycle or after a restart
over the shared store — reports it seen and leaves the queue unchanged. -/
theorem markGoalSeen_dedup (store : SeenStore) (queue : List (ℤ × ℤ))
    (gameID goalsToDate : ℤ) (h : (gameID, goalsToDate) ∉ store) :
    (MarkGoalSeen store gameID goalsToDate).1 = false ∧
    (processGoal store queue gameID goalsToDate).2 =
      queue ++ [(gameID, goalsToDate)] ∧
    (gameID, goalsToDate) ∈ (processGoal store queue gameID goalsToDate).1 ∧
    (∀ (store2 : SeenStore) (queue2 : List (ℤ × ℤ)),
      (gameID, goalsToDate) ∈ store2 →
        (MarkGoalSeen store2 gameID goalsToDate).1 = true ∧
        processGoal store2 queue2 gameID goalsToDate = (store2, queue2)) := by
  refine ⟨?_, ?_, ?_, ?_⟩
  · simp [MarkGoalSeen, h]
  · simp [processGoal, MarkGoalSeen, h]
  · simp [processGoal, MarkGoalSeen, h]
  · intro store2 queue2 h2
    constructor <;> simp [processGoal, MarkGoalSeen, h2]

/-- C9 witness: the pair (7, 2) against the empty store. -/
theorem markGoalSeen_dedup_witness :
    (MarkGoalSeen ([] : SeenStore) 7 2).1 = false ∧
    (processGoal ([] : SeenStore) [] 7 2).2 = [] ++ [(7, 2)] ∧
    (7, 2) ∈ (processGoal ([] : SeenStore) [] 7 2).1 ∧
    (∀ (store2 : SeenStore) (queue2 : List (ℤ × ℤ)),
      ((7 : ℤ), (2 : ℤ)) ∈ store2 →
        (MarkGoalSeen store2 7 2).1 = true ∧
        processGoal store2 queue2 7 2 = (store2, queue2)) :=
  markGoalSeen_dedup [] [] 7 2 (by simp)

/-- C8: with a nonempty log, an opposing save percentage anywhere between
the league average 0.905 and 1 never increases the heuristic prediction
relative to the no-goalie baseline (save percentage 0); in particular this
holds at 0.94, and the comparison is exact, not merely within rounding
tolerance. -/
theorem heuristic_goalie_no_increase (g : Game) (log : List GameLogEntry)
    (st : Standings) (sv : ℝ) (hne : log ≠ []) (h1 : 0.905 ≤ sv)
    (h2 : sv < 1) :
    predictHeuristic g log st sv ≤ predictHeuristic g log st 0 := by
  have hprob : ∀ s : ℝ, heuristicProb g log st s =
      baseProb log *
        (oppFactor g st * homeFactor g * recentFactor log *
          oviVsOpponentFactor log g.opponent (baselineGPG log) *
          pointStrengthFactor g st * paceFactorForOpponent st g.opponent *
          restFactor g log) * goalieFactor s := by
    intro s
    unfold heuristicProb CalibrationScale
    ring
  have hB : 0 ≤ oppFactor g st * homeFactor g * recentFactor log *
      oviVsOpponentFactor log g.opponent (baselineGPG log) *
      pointStrengthFactor g st * paceFactorForOpponent st g.opponent *
      restFactor g log := by
    have ho := (oppFactor_mem g st).1
    have hh := homeFactor_nonneg g
    have hr := (recentFactor_mem log).1
    have hv := (oviVsOpponentFactor_mem log g.opponent (baselineGPG log)).1
    have hs := (pointStrengthFactor_mem g st).1
    have hc := (paceFactorForOpponent_mem st g.opponent).1
    have ht := restFactor_nonneg g log
    refine mul_nonneg (mul_nonneg (mul_nonneg (mul_nonneg
      (mul_nonneg (mul_nonneg ?_ ?_) ?_) ?_) ?_) ?_) ?_ <;> linarith
  have hgf0 : 0 ≤ goalieFactor sv := by
    have := (goalieFactor_mem sv).1
    linarith
  have hgf1 : goalieFactor sv ≤ 1 := goalieFactor_le_one h1 h2
  unfold predictHeuristic
  rcases le_or_lt 0 (baseProb log) with hbp | hbp
  · have hP : 0 ≤ baseProb log *
        (oppFactor g st * homeFactor g * recentFactor log *
          oviVsOpponentFactor log g.opponent (baselineGPG log) *
          pointStrengthFactor g st * paceFactorForOpponent st g.opponent *
          restFactor g log) := mul_nonneg hbp hB
    have hle : heuristicProb g log st sv * 100 ≤
        heuristicProb g log st 0 * 100 := by
      rw [hprob sv, hprob 0, goalieFactor_zero]
      nlinarith
    exact clampPct_mono (goRound_mono hle)
  · have hP : baseProb log *
        (oppFactor g st * homeFactor g * recentFactor log *
          oviVsOpponentFactor log g.opponent (baselineGPG log) *
          pointStrengthFactor g st * paceFactorForOpponent st g.opponent *
          restFactor g log) ≤ 0 := by nlinarith
    have hsv0 : heuristicProb g log st sv * 100 ≤ 0 := by
      rw [hprob sv]
      nlinarith
    have hz0 : heuristicProb g log st 0 * 100 ≤ 0 := by
      rw [hprob 0, goalieFactor_zero]
      nlinarith
    rw [clampPct_of_nonpos (goRound_nonpos hsv0),
      clampPct_of_nonpos (goRound_nonpos hz0)]

/-- C8 witness: a one-game log, empty standings and an elite 0.94 opposing
save percentage against the no-goalie baseline. -/
theorem heuristic_goalie_no_increase_witness :
    predictHeuristic ⟨1, "WSH", "PIT", 0, "FUT"⟩ [⟨1, some 0, "PIT", "H", 1⟩]
        [] 0.94 ≤
      predictHeuristic ⟨1, "WSH", "PIT", 0, "FUT"⟩ [⟨1, some 0, "PIT", "H", 1⟩]
        [] 0 :=
  heuristic_goalie_no_increase _ _ _ _ (by simp) (by norm_num) (by norm_num)

theorem sigmoid_zero : sigmoid 0 = 1 / 2 := by
  unfold sigmoid
  rw [if_neg (by norm_num), if_neg (by norm_num)]
  rw [neg_zero, Real.exp_zero]
  norm_num

theorem sigmoid_of_gt {z : ℝ} (h : z > 20) : sigmoid z = 1 := by
  unfold sigmoid
  rw [if_pos h]
  norm_num

theorem sigmoid_of_lt {z : ℝ} (h : z < -20) : sigmoid z = 0 := by
  unfold sigmoid
  rw [if_neg (by linarith), if_pos h]
  norm_num

/-- C6 counterexample: on two identical-feature samples with opposite
labels, the reference full-batch trainer keeps the all-zero weights fixed,
while the trainer of the source — which applies each sample gradient
immediately at the current weights — ends at a nonzero vector. -/
theorem trainLogistic_ne_batch :
    trainLogistic exSamples ≠ refBatchTrain exSamples := by
  have hpass : ∀ w : List ℝ,
      trainPass exSamples w =
        stepSample 2 (stepSample 2 w (([1, 0, 0, 10000, 0] : List ℝ), (0 : ℝ)))
          (([1, 0, 0, 10000, 0] : List ℝ), (1 : ℝ)) := by
    intro w
    rfl
  have h1 : stepSample 2 [0, 0, 0, 0, 0]
      (([1, 0, 0, 10000, 0] : List ℝ), (0 : ℝ)) = [-0.0375, 0, 0, -375, 0] := by
    unfold stepSample
    dsimp only
    rw [show dot [0, 0, 0, 0, 0] [1, 0, 0, 10000, 0] = 0 by
      norm_num [dot]]
    rw [sigmoid_zero]
    norm_num [logisticLR]
  have h2 : stepSample 2 [-0.0375, 0, 0, -375, 0]
      (([1, 0, 0, 10000, 0] : List ℝ), (1 : ℝ)) = [0.0375, 0, 0, 375, 0] := by
    unfold stepSample
    dsimp only
    rw [show dot [-0.0375, 0, 0, -375, 0] [1, 0, 0, 10000, 0] =
        -3750000.0375 by norm_num [dot]]
    rw [sigmoid_of_lt (by norm_num)]
    norm_num [logisticLR]
  have h3 : stepSample 2 [0.0375, 0, 0, 375, 0]
      (([1, 0, 0, 10000, 0] : List ℝ), (0 : ℝ)) = [-0.0375, 0, 0, -375, 0] := by
    unfold stepSample
    dsimp only
    rw [show dot [0.0375, 0, 0, 375, 0] [1, 0, 0, 10000, 0] =
        3750000.0375 by norm_num [dot]]
    rw [sigmoid_of_gt (by norm_num)]
    norm_num [logisticLR]
  have hw0 : trainPass exSamples [0, 0, 0, 0, 0] = [0.0375, 0, 0, 375, 0] := by
    rw [hpass, h1, h2]
  have hfix : trainPass exSamples [0.0375, 0, 0, 375, 0] =
      [0.0375, 0, 0, 375, 0] := by
    rw [hpass, h3, h2]
  have hseq : trainLogistic exSamples = [0.0375, 0, 0, 375, 0] := by
    unfold trainLogistic logisticIters
    rw [show (400 : ℕ) = 399 + 1 by rfl, Function.iterate_succ_apply, hw0,
      Function.iterate_fixed hfix 399]
  have hgrad0 : refBatchGrad exSamples [0, 0, 0, 0, 0] = [0, 0, 0, 0, 0] := by
    unfold refBatchGrad
    rw [show exSamples =
        [(([1, 0, 0, 10000, 0] : List ℝ), (0 : ℝ)),
         (([1, 0, 0, 10000, 0] : List ℝ), (1 : ℝ))] from rfl]
    simp only [List.foldl_cons, List.foldl_nil]
    rw [show dot [0, 0, 0, 0, 0] [1, 0, 0, 10000, 0] = 0 by norm_num [dot]]
    rw [sigmoid_zero]
    norm_num [List.replicate]
  have hbstep : refBatchStep exSamples [0, 0, 0, 0, 0] = [0, 0, 0, 0, 0] := by
    unfold refBatchStep
    rw [hgrad0]
    norm_num [logisticLR]
  have hbatch : refBatchTrain exSamples = [0, 0, 0, 0, 0] := by
    unfold refBatchTrain
    exact Function.iterate_fixed hbstep logisticIters
  rw [hseq, hbatch]
  intro hcontra
  simp only [List.cons.injEq] at hcontra
  exact absurd hcontra.1 (by norm_num)

/-- C6 (amended): the trainer of the source computes the same final
5-weight vector as reference incremental gradient descent on log-loss:
all-zero start, 400 in-order passes, each sample gradient (p - y) x
evaluated at the current weights and applied immediately with learning rate
0.15 scaled by the sample count — not full-batch descent, which applies the
averaged gradient of the pass starting weights once per pass. -/
theorem trainLogistic_eq_incremental (samples : List LogSample) :
    trainLogistic samples = refIncTrain samples := by
  have hstep : stepSample samples.length = refIncStep samples.length := by
    funext w s
    unfold stepSample refIncStep
    dsimp only
    rw [List.zipWith_map_right]
    congr 1
    funext wk xk
    ring
  unfold trainLogistic refIncTrain trainPass
  rw [hstep]

/-- C10 counterexample: when the stream append succeeds but the marker
write fails, the next tick republishes the same game, so the completed game
5 ends up with two summaries on the stream. -/
theorem evaluator_double_publish :
    (evaluatorTrace ⟨0, []⟩
        [⟨true, some 5, true, true, false⟩,
         ⟨true, some 5, true, true, true⟩]).stream.count 5 = 2 ∧
      ¬ (evaluatorTrace ⟨0, []⟩
          [⟨true, some 5, true, true, false⟩,
           ⟨true, some 5, true, true, true⟩]).stream.count 5 ≤ 1 := by
  constructor <;> decide

theorem evaluatorRun_inv (st : EvalState) (t : EvalTick) (gid : ℤ)
    (hgood : t.xaddOk = true → t.setOk = true) (h : evalInv st gid) :
    evalInv (evaluatorRun st t) gid := by
  unfold evaluatorRun
  by_cases hp : t.pingOk = false
  · rw [if_pos hp]
    exact h
  · rw [if_neg hp]
    cases hg : t.game with
    | none => exact h
    | some gid2 =>
      dsimp only
      by_cases h2 : st.lastReported ≥ gid2
      · rw [if_pos h2]
        exact h
      · rw [if_neg h2]
        by_cases h3 : t.statsOk = false
        · rw [if_pos h3]
          exact h
        · rw [if_neg h3]
          by_cases h4 : t.xaddOk = false
          · rw [if_pos h4]
            exact h
          · rw [if_neg h4]
            have hset : t.setOk = true := by
              apply hgood
              cases hx : t.xaddOk
              · exact absurd hx h4
              · rfl
            rw [hset]
            simp only [if_true]
            constructor
            · show (st.stream ++ [gid2]).count gid ≤ 1
              rw [List.count_append]
              by_cases he : gid2 = gid
              · subst he
                have h0 : st.stream.count gid2 = 0 := by
                  by_contra hc
                  have hge : 1 ≤ st.stream.count gid2 := by omega
                  have := h.2 hge
                  omega
                simp [h0]
              · have hz : List.count gid [gid2] = 0 := by
                  simp [List.count_singleton]
                  omega
                have := h.1
                omega
            · show 1 ≤ (st.stream ++ [gid2]).count gid → gid ≤ gid2
              intro hcnt
              by_cases he : gid2 = gid
              · omega
              · rw [List.count_append] at hcnt
                have hz : List.count gid [gid2] = 0 := by
                  simp [List.count_singleton]
                  omega
                have hs : 1 ≤ st.stream.count gid := by omega
                have := h.2 hs
                omega

theorem evaluatorTrace_inv (ts : List EvalTick) (gid : ℤ) :
    ∀ st : EvalState, (∀ t ∈ ts, t.xaddOk = true → t.setOk = true) →
      evalInv st gid → evalInv (evaluatorTrace st ts) gid := by
  induction ts with
  | nil =>
    intro st _ h
    exact h
  | cons t rest ih =>
    intro st hgood h
    simp only [evaluatorTrace, List.foldl_cons]
    exact ih (evaluatorRun st t)
      (fun t2 ht2 => hgood t2 (List.mem_cons_of_mem _ ht2))
      (evaluatorRun_inv st t gid (hgood t (List.mem_cons_self _ _)) h)

/-- C10 (amended): the evaluator advances its marker only in a tick that
also appended the summary; a failed append leaves the state unchanged so
the game is retried and never skipped; once the marker is at or above a
game id no summary for it is published; and — provided the marker write
after each successful publish itself succeeds — every game id appears at
most once on the stream of any run started with an empty stream. -/
theorem evaluator_publish_protocol (st : EvalState) (t : EvalTick) (gid : ℤ) :
    (t.xaddOk = false → evaluatorRun st t = st) ∧
    (t.game = some gid → st.lastReported ≥ gid → evaluatorRun st t = st) ∧
    ((evaluatorRun st t).lastReported ≠ st.lastReported →
      t.game = some ((evaluatorRun st t).lastReported) ∧
      (evaluatorRun st t).stream =
        st.stream ++ [(evaluatorRun st t).lastReported]) ∧
    (∀ (ts : List EvalTick) (l0 : ℤ),
      (∀ tk ∈ ts, tk.xaddOk = true → tk.setOk = true) →
      (evaluatorTrace ⟨l0, []⟩ ts).stream.count gid ≤ 1) := by
  refine ⟨?_, ?_, ?_, ?_⟩
  · intro hx
    unfold evaluatorRun
    by_cases hp : t.pingOk = false
    · rw [if_pos hp]
    · rw [if_neg hp]
      cases hg : t.game with
      | none => rfl
      | some gid2 =>
        dsimp only
        by_cases h2 : st.lastReported ≥ gid2
        · rw [if_pos h2]
        · rw [if_neg h2]
          by_cases h3 : t.statsOk = false
          · rw [if_pos h3]
          · rw [if_neg h3, if_pos hx]
  · intro hg h2
    unfold evaluatorRun
    by_cases hp : t.pingOk = false
    · rw [if_pos hp]
    · rw [if_neg hp, hg]
      dsimp only
      rw [if_pos h2]
  · intro hch
    revert hch
    unfold evaluatorRun
    by_cases hp : t.pingOk = false
    · rw [if_pos hp]
      intro hch
      exact absurd rfl hch
    · rw [if_neg hp]
      cases hg : t.game with
      | none =>
        intro hch
        exact absurd rfl hch
      | some gid2 =>
        dsimp only
        by_cases h2 : st.lastReported ≥ gid2
        · rw [if_pos h2]
          intro hch
          exact absurd rfl hch
        · rw [if_neg h2]
          by_cases h3 : t.statsOk = false
          · rw [if_pos h3]
            intro hch
            exact absurd rfl hch
          · rw [if_neg h3]
            by_cases h4 : t.xaddOk = false
            · rw [if_pos h4]
              intro hch
              exact absurd rfl hch
            · rw [if_neg h4]
              cases hk : t.setOk with
              | false =>
                intro hch
                exact absurd (by simp) hch
              | true =>
                intro _
                refine ⟨?_, ?_⟩ <;> simp [hg]
  · intro ts l0 hgood
    have hinv : evalInv ⟨l0, []⟩ gid := by
      constructor
      · simp [evalInv, List.count_nil]
      · intro hc
        simp at hc
    exact (evaluatorTrace_inv ts gid ⟨l0, []⟩ hgood hinv).1

/-- C10 witness: a failed append leaves the state unchanged, a covered
marker suppresses publishing, and a two-tick run with reliable marker
writes publishes game 5 exactly once. -/
theorem evaluator_publish_protocol_witness :
    evaluatorRun ⟨0, []⟩ ⟨true, some 5, true, false, true⟩ = ⟨0, []⟩ ∧
    evaluatorRun ⟨9, []⟩ ⟨true, some 5, true, true, true⟩ = ⟨9, []⟩ ∧
    (evaluatorTrace ⟨0, []⟩
        [⟨true, some 5, true, true, true⟩,
         ⟨true, some 5, true, true, true⟩]).stream.count 5 ≤ 1 :=
  ⟨(evaluator_publish_protocol ⟨0, []⟩ ⟨true, some 5, true, false, true⟩ 5).1 rfl,
   (evaluator_publish_protocol ⟨9, []⟩ ⟨true, some 5, true, true, true⟩ 5).2.1 rfl
     (by norm_num),
   (evaluator_publish_protocol ⟨0, []⟩ ⟨true, some 5, true, true, true⟩ 5).2.2.2
     _ 0 (by decide)⟩

end Ovech
